import Mathlib

/-!
Shallow embedding of the alma-tv scheduler core (scheduler/lineup.py,
scheduler/weights.py, scheduler/parser.py) and verification of its
specification claims.

Modelling conventions:
- Python `str` is modelled as `List Char` (`Str`); the text operations used by
  the parser (`lower`, `replace`, `strip`, `split`, `re.split(" and |,")`) are
  implemented as structurally recursive functions with the same semantics.
- Calendar datetimes are modelled at day granularity as `Int` (the code only
  ever uses `.days` of datetime differences and day-based cutoffs).
- Python floats are idealised as real numbers `ℝ`.
- The SQLAlchemy store is modelled as in-memory lists of rows (`DB`), with
  autoincrement primary keys modelled by explicit `next_*_id` counters.
- `random.choices(population, weights=w, k=1)[0]` (the only use of
  randomness) is modelled by an injectable picker `pick : σ → List ℝ → Nat × σ`
  returning an index into the population (reduced mod its length) and the next
  generator state; a caller-fixed seed corresponds to a fixed initial `σ`.
- `difflib.get_close_matches(kw, cands, n=1, cutoff=0.6)` (Python standard
  library, external to the repository) is modelled by an abstract parameter
  `fuzzy : Str → List Str → Option Str`.
-/

/-- Python strings as lists of characters. -/
abbrev Str := List Char

/-- Turn a Lean string literal into the `Str` model. -/
def str (s : String) : Str := s.data

/-- Python `str.lower()` (ASCII data in this system). -/
def lowerStr (s : Str) : Str := s.map Char.toLower

/-- Does `s` start with `pat`? -/
def startsWithStr : Str → Str → Bool
  | _, [] => true
  | [], _ :: _ => false
  | c :: cs, d :: ds => c == d && startsWithStr cs ds

/-- Python `pat in s` (substring containment). -/
def containsStr : Str → Str → Bool
  | [], pat => startsWithStr [] pat
  | s@(_ :: cs), pat => startsWithStr s pat || containsStr cs pat

/-- Python `s.replace(pat, rep)` for a nonempty `pat`: replace every
non-overlapping occurrence, scanning left to right. The `fuel` argument makes
the recursion structural (each step consumes at least one character, so
`fuel = s.length` never runs out before the scan ends). -/
def replaceStrFuel (pat rep : Str) : Nat → Str → Str
  | 0, s => s
  | _ + 1, [] => []
  | n + 1, c :: cs =>
    if pat ≠ [] ∧ startsWithStr (c :: cs) pat then
      rep ++ replaceStrFuel pat rep n (cs.drop (pat.length - 1))
    else
      c :: replaceStrFuel pat rep n cs

/-- Python `s.replace(pat, rep)`. -/
def replaceStr (pat rep : Str) (s : Str) : Str :=
  replaceStrFuel pat rep s.length s

/-- Python `s.strip()`. -/
def trimStr (s : Str) : Str :=
  ((s.dropWhile Char.isWhitespace).reverse.dropWhile Char.isWhitespace).reverse

/-- Python `s.split()`: split on runs of whitespace, dropping empty tokens.
The `fuel` argument makes the recursion structural (each step consumes at
least one character, so `fuel = s.length` never runs out early). -/
def wordsStrFuel : Nat → Str → List Str
  | 0, _ => []
  | _ + 1, [] => []
  | n + 1, c :: cs =>
    if c.isWhitespace then wordsStrFuel n cs
    else
      ((c :: cs).takeWhile (fun d => !d.isWhitespace)) ::
        wordsStrFuel n ((c :: cs).dropWhile (fun d => !d.isWhitespace))

/-- Python `s.split()`. -/
def wordsStr (s : Str) : List Str := wordsStrFuel s.length s

/-- Python `re.split(r" and |,", s)`: split on the literal delimiters
`" and "` and `","`, scanning left to right (the two delimiters cannot
overlap). The accumulator holds the current clause reversed; the `fuel`
argument makes the recursion structural (each step consumes at least one
character, so `fuel = s.length` never runs out early). -/
def splitRequestsStrFuel : Nat → Str → Str → List Str
  | 0, _, acc => [acc.reverse]
  | _ + 1, [], acc => [acc.reverse]
  | n + 1, c :: cs, acc =>
    if startsWithStr (c :: cs) (str " and ") then
      acc.reverse :: splitRequestsStrFuel n (cs.drop 4) []
    else if c == ',' then
      acc.reverse :: splitRequestsStrFuel n cs []
    else
      splitRequestsStrFuel n cs (c :: acc)

/-- Python `re.split(r" and |,", s)`. -/
def splitRequestsStr (s : Str) (acc : Str) : List Str :=
  splitRequestsStrFuel s.length s acc

/-- Python `" ".join(ws)`. -/
def joinWordsStr : List Str → Str
  | [] => []
  | w :: ws => ws.foldl (fun acc x => acc ++ [' '] ++ x) w

/-- Python `s.isdigit()` for ASCII digit strings. -/
def isDigitStr (s : Str) : Bool := !s.isEmpty && s.all Char.isDigit

/-- Python `int(s)` on a digit string. -/
def digitsToNat (s : Str) : Nat :=
  s.foldl (fun n c => n * 10 + (c.toNat - '0'.toNat)) 0

/-- Total lexicographic order on `Str` (SQL `ORDER BY` on a text column;
ASCII data, so byte order and codepoint order agree). -/
def leStr : Str → Str → Bool
  | [], _ => true
  | _ :: _, [] => false
  | a :: as, b :: bs => if a == b then leStr as bs else decide (a < b)

/-! ## Data model (database/models.py) -/

/-- Feedback rating values (`Rating`). -/
inductive Rating where
  | liked
  | okay
  | never
  deriving DecidableEq, Inhabited

/-- Status of a viewing session (`SessionStatus`). -/
inductive SessionStatus where
  | planned
  | completed
  | cancelled
  deriving DecidableEq, Inhabited

/-- A `videos` row. Fields not used by the scheduler core (title, path,
added_at, file_hash) are omitted. -/
structure Video where
  id : Nat
  series : Str
  season : Nat
  episode_code : Str
  duration_seconds : Nat
  disabled : Bool
  deriving DecidableEq, Inhabited

/-- A `play_history` row. `started_at`/`ended_at` are nullable and filled by
the playback layer; `ended_at` is never read by the core and is omitted. -/
structure PlayHistory where
  id : Nat
  session_id : Nat
  video_id : Nat
  slot_order : Nat
  started_at : Option Int
  completed : Bool
  deriving DecidableEq, Inhabited

/-- A `feedback` row (unique per play_history row). -/
structure Feedback where
  id : Nat
  play_history_id : Nat
  rating : Rating
  submitted_at : Int
  deriving DecidableEq, Inhabited

/-- A `sessions` row (`show_date` is stored at midnight, i.e. exactly the
date, so it is an `Int` day here). -/
structure Session where
  id : Nat
  show_date : Int
  status : SessionStatus
  intro_path : Option Str
  outro_path : Option Str
  total_duration_seconds : Nat
  deriving DecidableEq, Inhabited

/-- The data store: the row lists plus autoincrement counters. -/
structure DB where
  videos : List Video
  sessions : List Session
  play_history : List PlayHistory
  feedback : List Feedback
  next_session_id : Nat
  next_play_history_id : Nat
  deriving DecidableEq, Inhabited

/-- The configuration values the core reads (config/settings.py).
`intro_duration`/`outro_duration` model the externally probed durations
`_get_file_duration(path)` (already 0 when the file does not exist). -/
structure Config where
  target_duration_minutes : Nat
  repeat_cooldown_days : Nat
  intro_path : Option Str
  outro_path : Option Str
  intro_duration : Nat
  outro_duration : Nat
  keyword_map : List (Str × Str)
  deriving DecidableEq, Inhabited

/-- One normalized request clause (`{"series": ..., "count": ...}`). -/
structure SeriesRequest where
  series : Str
  count : Nat
  deriving DecidableEq, Inhabited

/-- The `request_payload` argument of `generate_lineup`: either the
`{"requests": [...]}` form or the legacy `{"series": X, "count": N}` form
(with `count` optional). -/
inductive RequestPayload where
  | requestList (requests : List SeriesRequest)
  | legacySeries (series : Str) (count : Option Nat)
  deriving DecidableEq, Inhabited

/-! ## WeightCalculator (scheduler/weights.py) -/

namespace WeightCalculator

/-- `BASELINE_WEIGHT = 1.0`. -/
noncomputable def BASELINE_WEIGHT : ℝ := 1

/-- `LIKED_BONUS = 0.5`. -/
noncomputable def LIKED_BONUS : ℝ := 1 / 2

/-- `DECAY_HALF_LIFE_DAYS = 7`. -/
def DECAY_HALF_LIFE_DAYS : ℕ := 7

/-- `NEVER_AGAIN_WEIGHT = 0.0`. -/
noncomputable def NEVER_AGAIN_WEIGHT : ℝ := 0

/-- The feedback rows joined to play_history rows of this video
(`db.query(Feedback).join(PlayHistory).filter(PlayHistory.video_id == video_id)`). -/
def feedback_for_video (db : DB) (video_id : Nat) : List Feedback :=
  db.feedback.filter (fun f =>
    db.play_history.any (fun p => p.id == f.play_history_id && p.video_id == video_id))

/-- Whether any NEVER-rated feedback exists for this video (the
`never_feedback` query: joined feedback filtered by `rating == NEVER`,
`.first()` non-null). -/
def has_never_feedback (db : DB) (video_id : Nat) : Bool :=
  (feedback_for_video db video_id).any (fun f => f.rating == Rating.never)

/-- `0.5 ** (days_ago / DECAY_HALF_LIFE_DAYS)` (Python true division of ints,
so a real exponent). -/
noncomputable def decay_factor (days_ago : Int) : ℝ :=
  (1 / 2 : ℝ) ^ ((days_ago : ℝ) / (DECAY_HALF_LIFE_DAYS : ℝ))

/-- The sum of the LIKED bonuses: for every LIKED feedback of this video,
`LIKED_BONUS * decay_factor((as_of_date - feedback.submitted_at).days)`. -/
noncomputable def liked_bonus (db : DB) (video_id : Nat) (as_of_date : Int) : ℝ :=
  (((feedback_for_video db video_id).filter (fun f => f.rating == Rating.liked)).map
    (fun f => LIKED_BONUS * decay_factor (as_of_date - f.submitted_at))).sum

/-- The non-null start times of this video's completed plays. -/
def completed_play_starts (db : DB) (video_id : Nat) : List Int :=
  db.play_history.filterMap (fun p =>
    if p.video_id == video_id && p.completed then p.started_at else none)

/-- The `last_play` query: completed plays of the video ordered by
`started_at` descending, `.first()`, i.e. the greatest start time (SQLite
sorts NULLs last under DESC; completed plays are given start times by the
playback layer). -/
def last_play_started (db : DB) (video_id : Nat) : Option Int :=
  (completed_play_starts db video_id).max?

/-- The freshness boost: if the most recent completed play is more than
14 days old, `min((days_since_play - 14) / 100, 0.5)`, else nothing. -/
noncomputable def freshness_boost (db : DB) (video_id : Nat) (as_of_date : Int) : ℝ :=
  match last_play_started db video_id with
  | none => 0
  | some t =>
    let days_since_play := as_of_date - t
    if 14 < days_since_play then
      min (((days_since_play - 14 : Int) : ℝ) / 100) (1 / 2)
    else 0

/-- `WeightCalculator.calculate_weight(video_id, as_of_date)`: 0 on any NEVER
feedback, otherwise baseline plus decayed LIKED bonuses plus the freshness
boost (OKAY feedback contributes nothing). -/
noncomputable def calculate_weight (db : DB) (video_id : Nat) (as_of_date : Int) : ℝ :=
  if has_never_feedback db video_id then NEVER_AGAIN_WEIGHT
  else BASELINE_WEIGHT + liked_bonus db video_id as_of_date
    + freshness_boost db video_id as_of_date

/-- `calculate_weights_batch`: the per-item loop, as a function on ids. -/
noncomputable def calculate_weights_batch (db : DB) (as_of_date : Int) : Nat → ℝ :=
  fun video_id => calculate_weight db video_id as_of_date

end WeightCalculator

/-! ## LineupGenerator (scheduler/lineup.py) -/

namespace LineupGenerator

/-- The `ORDER BY videos.series, videos.season, videos.episode_code` key of
`LibraryService.list_episodes` as a total relation. -/
def videoLE (a b : Video) : Prop :=
  (if a.series ≠ b.series then leStr a.series b.series
   else if a.season ≠ b.season then decide (a.season ≤ b.season)
   else leStr a.episode_code b.episode_code) = true

instance : DecidableRel videoLE := fun a b => by
  unfold videoLE
  infer_instance

/-- `LibraryService.list_episodes(disabled=False)`: all non-disabled videos,
ordered by series, season, episode code. -/
def list_episodes (db : DB) : List Video :=
  List.insertionSort videoLE (db.videos.filter (fun v => !v.disabled))

/-- Normalize the `request_payload` argument into a request list:
`{"requests": [...]}` is taken as-is, the legacy `{"series": X}` form maps to
a single request with `count = payload.get("count", 3)`. -/
def normalize_requests : Option RequestPayload → List SeriesRequest
  | none => []
  | some (RequestPayload.requestList rs) => rs
  | some (RequestPayload.legacySeries s c) => [⟨s, c.getD 3⟩]

/-- `_build_candidate_pool(cooldown_days, requests)` as called from
`generate_lineup` (which never forwards the deprecated `request_payload`
parameter, so the legacy strict-filter branch is unreachable on this path):
all non-disabled videos, keeping a video if its series is requested
(cooldown exemption) or it has no completed play started within the
cooldown window (`started_at >= utcnow() - cooldown_days` and
`completed == True`; a NULL `started_at` fails the SQL comparison). -/
def build_candidate_pool (db : DB) (now : Int) (cooldown_days : Nat)
    (requests : List SeriesRequest) : List Video :=
  let candidates := list_episodes db
  let cooldown_date : Int := now - (cooldown_days : Int)
  let recent_ids : List Nat :=
    (db.play_history.filter (fun p =>
      (match p.started_at with
       | some t => decide (cooldown_date ≤ t)
       | none => false) && p.completed)).map (fun p => p.video_id)
  let requested_series_names := requests.map (fun r => r.series)
  candidates.filter (fun v =>
    requested_series_names.contains v.series || !(recent_ids.contains v.id))

/-- The request-affinity boost: `weights[video.id] *= 3.0` for every request
and every candidate whose series matches that request (candidate ids are
unique in a well-formed store, so each update hits its own key). -/
noncomputable def apply_request_multiplier (candidates : List Video)
    (requests : List SeriesRequest) (weights : Nat → ℝ) : Nat → ℝ :=
  requests.foldl
    (fun w req => fun i =>
      if candidates.any (fun v => v.id == i && v.series == req.series) then w i * 3
      else w i)
    weights

/-- The mutable state of `_select_episodes`: the remaining pool, the
selection so far, its accumulated duration, the used (series, season)
pairs, and the random-generator state. -/
structure SelState (σ : Type) where
  valid : List Video
  selected : List Video
  total : Int
  used : List (Str × Nat)
  rng : σ
  deriving DecidableEq

/-- One request's inner loop (`for _ in range(count)`): stop when the
series' candidates run out or their weights sum to zero; otherwise pick one
by weighted random choice, append it to the selection and remove it from
both pools. -/
noncomputable def fulfill_request {σ : Type} (pick : σ → List ℝ → Nat × σ)
    (weights : Nat → ℝ) : Nat → List Video → SelState σ → SelState σ
  | 0, _, st => st
  | Nat.succ n, series_candidates, st =>
    match series_candidates with
    | [] => st
    | _ :: _ =>
      let weight_list := series_candidates.map (fun v => weights v.id)
      if weight_list.sum = 0 then st
      else
        let i := (pick st.rng weight_list).1
        let rng' := (pick st.rng weight_list).2
        let chosen := series_candidates.getD (i % series_candidates.length) default
        fulfill_request pick weights n (series_candidates.erase chosen)
          { valid := st.valid.erase chosen
            selected := st.selected ++ [chosen]
            total := st.total + (chosen.duration_seconds : Int)
            used := (chosen.series, chosen.season) :: st.used
            rng := rng' }

/-- The request-fulfillment pass (`# 1. Fulfill requests first`): for each
request in order, run its rounds on the series' remaining candidates. -/
noncomputable def fulfill_requests {σ : Type} (pick : σ → List ℝ → Nat × σ)
    (weights : Nat → ℝ) : List SeriesRequest → SelState σ → SelState σ
  | [], st => st
  | req :: rest, st =>
    let series_candidates := st.valid.filter (fun v => v.series == req.series)
    fulfill_requests pick weights rest
      (fulfill_request pick weights req.count series_candidates st)

/-- The `diverse_candidates` list of one fill-loop iteration: the remaining
pool restricted to unused (series, season) pairs, falling back to the whole
remaining pool only while below `min_episodes`. -/
def diverse_candidates {σ : Type} (st : SelState σ) (min_episodes : Nat) : List Video :=
  let diverse0 := st.valid.filter (fun v => !(st.used.contains (v.series, v.season)))
  if diverse0.isEmpty && decide (st.selected.length < min_episodes) then st.valid
  else diverse0

/-- The diversity-fill pass (`# 2. Fill remaining slots`): while fewer than
`max_episodes` are selected, prefer candidates with an unused
(series, season) pair, falling back to the whole remaining pool only while
below `min_episodes`; pick by weighted random choice; accept only within the
60-second overage tolerance, otherwise discard the candidate and retry;
break early once at least `min_episodes` are selected and the total is
within 60 seconds of the target. The fuel is the remaining pool size: every
iteration removes one candidate from the pool, so the while loop performs at
most that many iterations and the fuel never cuts it short. -/
noncomputable def fill_episodes {σ : Type} (pick : σ → List ℝ → Nat × σ)
    (weights : Nat → ℝ) (available_duration : Int)
    (min_episodes max_episodes : Nat) : Nat → SelState σ → SelState σ
  | 0, st => st
  | Nat.succ fuel, st =>
    if st.selected.length < max_episodes then
      let diverse := diverse_candidates st min_episodes
      if diverse.isEmpty then st
      else
        let weight_list := diverse.map (fun v => weights v.id)
        if weight_list.sum = 0 then st
        else
          let i := (pick st.rng weight_list).1
          let rng' := (pick st.rng weight_list).2
          let chosen := diverse.getD (i % diverse.length) default
          let new_total := st.total + (chosen.duration_seconds : Int)
          if new_total ≤ available_duration + 60 then
            let st' : SelState σ :=
              { valid := st.valid.erase chosen
                selected := st.selected ++ [chosen]
                total := new_total
                used := (chosen.series, chosen.season) :: st.used
                rng := rng' }
            if min_episodes ≤ st'.selected.length ∧
                |new_total - available_duration| < 60 then st'
            else fill_episodes pick weights available_duration min_episodes max_episodes fuel st'
          else
            fill_episodes pick weights available_duration min_episodes max_episodes fuel
              { valid := st.valid.erase chosen
                selected := st.selected
                total := st.total
                used := st.used
                rng := rng' }
    else st

/-- `_select_episodes(candidates, weights, available_duration, min_episodes,
max_episodes, requests)`: filter out zero-weight candidates, fulfill the
requests, then fill the remaining slots. -/
noncomputable def select_episodes {σ : Type} (pick : σ → List ℝ → Nat × σ)
    (candidates : List Video) (weights : Nat → ℝ) (available_duration : Int)
    (min_episodes max_episodes : Nat) (requests : List SeriesRequest)
    (rng : σ) : List Video × σ :=
  let valid_candidates := candidates.filter (fun v => decide (0 < weights v.id))
  let st1 := fulfill_requests pick weights requests
    { valid := valid_candidates, selected := [], total := 0, used := [], rng := rng }
  let st2 := fill_episodes pick weights available_duration min_episodes max_episodes
    st1.valid.length st1
  (st2.selected, st2.rng)

/-- `_create_session(target_date, selected_videos, intro_path, outro_path)`:
insert one PLANNED session for the date with the summed duration, plus one
play-history row per selected video with `slot_order` enumerated from 1. -/
def create_session (db : DB) (target_date : Int) (selected_videos : List Video)
    (intro_path outro_path : Option Str) : Nat × DB :=
  let total_duration := (selected_videos.map (fun v => v.duration_seconds)).sum
  let sid := db.next_session_id
  let session : Session :=
    { id := sid
      show_date := target_date
      status := SessionStatus.planned
      intro_path := intro_path
      outro_path := outro_path
      total_duration_seconds := total_duration }
  let rows := selected_videos.enum.map (fun kv =>
    ({ id := db.next_play_history_id + kv.1
       session_id := sid
       video_id := kv.2.id
       slot_order := kv.1 + 1
       started_at := none
       completed := false } : PlayHistory))
  (sid,
    { db with
      sessions := db.sessions ++ [session]
      play_history := db.play_history ++ rows
      next_session_id := sid + 1
      next_play_history_id := db.next_play_history_id + selected_videos.length })

/-- The `available_duration` of step 1-2: the target in seconds minus the
probed intro/outro durations. -/
def available_duration (cfg : Config) (target_duration_minutes : Option Nat) : Int :=
  ((target_duration_minutes.getD cfg.target_duration_minutes) * 60 : Nat)
    - (cfg.intro_duration : Int) - (cfg.outro_duration : Int)

/-- `generate_lineup(target_date, target_duration_minutes, min_episodes,
max_episodes, request_payload)`. Returns the session id (or `none`) and the
resulting store. `now` is `datetime.utcnow()` at day granularity; `pick`/`rng`
model the seeded global random generator. Steps, as in the source: resolve
the duration budget, return the existing session id unchanged if one exists
for the date, normalize the requests, build the candidate pool (empty pool
fails with `none`), compute batch weights and apply the request multiplier,
select episodes (empty selection fails with `none`), then persist the
session and its play-history rows. -/
noncomputable def generate_lineup {σ : Type} (pick : σ → List ℝ → Nat × σ)
    (cfg : Config) (db : DB) (rng : σ) (now : Int) (target_date : Int)
    (target_duration_minutes : Option Nat) (min_episodes max_episodes : Nat)
    (request_payload : Option RequestPayload) : Option Nat × DB :=
  match db.sessions.find? (fun s => s.show_date == target_date) with
  | some existing => (some existing.id, db)
  | none =>
    let requests := normalize_requests request_payload
    let candidates := build_candidate_pool db now cfg.repeat_cooldown_days requests
    if candidates.isEmpty then (none, db)
    else
      let weights := apply_request_multiplier candidates requests
        (WeightCalculator.calculate_weights_batch db now)
      let selected := (select_episodes pick candidates weights
        (available_duration cfg target_duration_minutes)
        min_episodes max_episodes requests rng).1
      if selected.isEmpty then (none, db)
      else
        let res := create_session db target_date selected cfg.intro_path cfg.outro_path
        (some res.1, res.2)

end LineupGenerator

/-! ## RequestParser (scheduler/parser.py). The class is modelled as the
namespace `RequestParsing`; its settings (`keyword_map`) and the library's
distinct series list are passed as arguments, and `difflib.get_close_matches`
as the abstract `fuzzy` argument. -/

namespace RequestParsing

/-- The spelled-out `number_map` ("one" .. "ten"). -/
def number_map : List (Str × Nat) :=
  [(str "one", 1), (str "two", 2), (str "three", 3), (str "four", 4),
   (str "five", 5), (str "six", 6), (str "seven", 7), (str "eight", 8),
   (str "nine", 9), (str "ten", 10)]

/-- `_resolve_series(keyword)`: strip, then (1) the configured keyword map,
(2) an exact case-insensitive match against the library's series, (3) the
best fuzzy match (cutoff 0.6) against the lowercased series names, mapped
back to the original-case name. -/
def resolve_series (keyword_map : List (Str × Str)) (all_series : List Str)
    (fuzzy : Str → List Str → Option Str) (keyword0 : Str) : Option Str :=
  let keyword := trimStr keyword0
  match keyword_map.lookup keyword with
  | some s => some s
  | none =>
    match all_series.find? (fun s => lowerStr s == keyword) with
    | some s => some s
    | none =>
      match fuzzy keyword (all_series.map lowerStr) with
      | some m => all_series.find? (fun s => lowerStr s == m)
      | none => none

/-- One clause of `parse`: skip empty clauses; if the first word is a number
word or a digit string, it is the count and the rest is the series keyword,
otherwise the count is 1 and the whole clause is the keyword; unresolvable
keywords are dropped (logged in the source). -/
def parse_clause (keyword_map : List (Str × Str)) (all_series : List Str)
    (fuzzy : Str → List Str → Option Str) (part0 : Str) : Option SeriesRequest :=
  let part := trimStr part0
  if part.isEmpty then none
  else
    let words := wordsStr part
    let cnt_kw : Nat × Str :=
      match words with
      | [] => (1, part)
      | w :: rest =>
        match number_map.lookup w with
        | some n => (n, joinWordsStr rest)
        | none =>
          if isDigitStr w then (digitsToNat w, joinWordsStr rest)
          else (1, part)
    match resolve_series keyword_map all_series fuzzy cnt_kw.2 with
    | some name => some ⟨name, cnt_kw.1⟩
    | none => none

/-- `RequestParser.parse(text)`: lowercase; "tomorrow" in the text sets the
day offset to 1 and is stripped, then "today" resets it to 0 and is
stripped; split the rest into clauses on `" and "`/`","` and parse each. -/
def parse (keyword_map : List (Str × Str)) (all_series : List Str)
    (fuzzy : Str → List Str → Option Str) (text0 : Str) :
    Int × List SeriesRequest :=
  let text1 := lowerStr text0
  let off_text2 : Int × Str :=
    if containsStr text1 (str "tomorrow") then (1, replaceStr (str "tomorrow") [] text1)
    else (0, text1)
  let off_text3 : Int × Str :=
    if containsStr off_text2.2 (str "today") then (0, replaceStr (str "today") [] off_text2.2)
    else off_text2
  let parts := splitRequestsStr off_text3.2 []
  (off_text3.1, parts.filterMap (parse_clause keyword_map all_series fuzzy))

end RequestParsing

/-! ## Concrete stores, configurations and pickers used as witnesses -/

/-- A picker that always returns index 0 (any concrete draw of the seeded
generator; for singleton populations every picker agrees with it). -/
def pickZero : Unit → List ℝ → Nat × Unit := fun u _ => (0, u)

/-- Config matching the repository defaults with 10-second intro/outro
(as in the test fixtures): 30-minute target, 14-day cooldown. -/
def defaultCfg : Config :=
  { target_duration_minutes := 30
    repeat_cooldown_days := 14
    intro_path := some (str "/intro.mp4")
    outro_path := some (str "/outro.mp4")
    intro_duration := 10
    outro_duration := 10
    keyword_map := [] }

/-- A store that already has a session for date 5 (id 7). -/
def sessionExistsDB : DB :=
  { videos := [{ id := 1, series := str "Bluey", season := 1,
                 episode_code := str "S01E01", duration_seconds := 300,
                 disabled := false }]
    sessions := [{ id := 7, show_date := 5, status := SessionStatus.planned,
                   intro_path := none, outro_path := none,
                   total_duration_seconds := 300 }]
    play_history := []
    feedback := []
    next_session_id := 8
    next_play_history_id := 1 }

/-- A store whose video 1 has a NEVER-rated feedback. -/
def neverFeedbackDB : DB :=
  { videos := [{ id := 1, series := str "Bluey", season := 1,
                 episode_code := str "S01E01", duration_seconds := 300,
                 disabled := false }]
    sessions := []
    play_history := [{ id := 1, session_id := 1, video_id := 1, slot_order := 1,
                       started_at := none, completed := true }]
    feedback := [{ id := 1, play_history_id := 1, rating := Rating.never,
                   submitted_at := 0 }]
    next_session_id := 1
    next_play_history_id := 2 }

/-- A store whose video 1 has exactly one LIKED feedback (submitted at day 0)
and no completed play: the clean single-LIKED scenario. -/
def singleLikedDB : DB :=
  { videos := [{ id := 1, series := str "Bluey", season := 1,
                 episode_code := str "S01E01", duration_seconds := 300,
                 disabled := false }]
    sessions := []
    play_history := [{ id := 1, session_id := 1, video_id := 1, slot_order := 1,
                       started_at := none, completed := false }]
    feedback := [{ id := 1, play_history_id := 1, rating := Rating.liked,
                   submitted_at := 0 }]
    next_session_id := 1
    next_play_history_id := 2 }

/-- A store whose video 1 has one LIKED feedback (submitted at day 0) and a
completed play started at day -30: the freshness boost fires on top of the
LIKED bonus. -/
def likedWithOldPlayDB : DB :=
  { videos := [{ id := 1, series := str "Bluey", season := 1,
                 episode_code := str "S01E01", duration_seconds := 300,
                 disabled := false }]
    sessions := []
    play_history := [{ id := 1, session_id := 1, video_id := 1, slot_order := 1,
                       started_at := some (-30), completed := true }]
    feedback := [{ id := 1, play_history_id := 1, rating := Rating.liked,
                   submitted_at := 0 }]
    next_session_id := 1
    next_play_history_id := 2 }

/-- A store whose video 1 has one LIKED feedback and a completed play, both
at day 0: as days pass, the freshness boost grows while the LIKED bonus
decays. -/
def likedPlayedDB : DB :=
  { videos := [{ id := 1, series := str "Bluey", season := 1,
                 episode_code := str "S01E01", duration_seconds := 300,
                 disabled := false }]
    sessions := []
    play_history := [{ id := 1, session_id := 1, video_id := 1, slot_order := 1,
                       started_at := some 0, completed := true }]
    feedback := [{ id := 1, play_history_id := 1, rating := Rating.liked,
                   submitted_at := 0 }]
    next_session_id := 1
    next_play_history_id := 2 }

/-- A library with a single enabled 300-second video and no history. -/
def soloVideo : Video :=
  { id := 1, series := str "Solo", season := 1, episode_code := str "S01E01",
    duration_seconds := 300, disabled := false }

/-- The store holding only `soloVideo`. -/
def oneVideoDB : DB :=
  { videos := [soloVideo], sessions := [], play_history := [], feedback := [],
    next_session_id := 1, next_play_history_id := 1 }

/-- Three enabled 10-second videos from three distinct series. -/
def alphaVideo : Video :=
  { id := 1, series := str "Alpha", season := 1, episode_code := str "S01E01",
    duration_seconds := 10, disabled := false }

def betaVideo : Video :=
  { id := 2, series := str "Beta", season := 1, episode_code := str "S01E01",
    duration_seconds := 10, disabled := false }

def gammaVideo : Video :=
  { id := 3, series := str "Gamma", season := 1, episode_code := str "S01E01",
    duration_seconds := 10, disabled := false }

/-- The store holding the three 10-second videos and no history. -/
def threeSmallDB : DB :=
  { videos := [alphaVideo, betaVideo, gammaVideo], sessions := [],
    play_history := [], feedback := [],
    next_session_id := 1, next_play_history_id := 1 }

/-- A store with two videos where video 1 has a completed play started at
day 0 (inside the 14-day cooldown of a generation at day 5). -/
def cooldownDB : DB :=
  { videos := [{ id := 1, series := str "Bluey", season := 1,
                 episode_code := str "S01E01", duration_seconds := 300,
                 disabled := false },
               { id := 2, series := str "Zoo", season := 1,
                 episode_code := str "S01E01", duration_seconds := 300,
                 disabled := false }]
    sessions := []
    play_history := [{ id := 1, session_id := 1, video_id := 1, slot_order := 1,
                       started_at := some 0, completed := true }]
    feedback := []
    next_session_id := 2
    next_play_history_id := 2 }

/-- The video ids of the play-history rows a call added to the store, in
slot order: the rows beyond the ones `db` already had. -/
def new_play_video_ids (db db' : DB) : List Nat :=
  (db'.play_history.drop db.play_history.length).map (fun r => r.video_id)

/-- The summed duration of a video list, as the integer the selection loop
accumulates in `total_duration`. -/
def sumDur (l : List Video) : Int :=
  ((l.map (fun v => v.duration_seconds)).sum : Nat)

/-! ## General lemmas about the embedding -/

/-- A video with no feedback rows and no completed play has exactly the
baseline weight 1. -/
theorem calculate_weight_of_no_history (db : DB) (video_id : Nat) (as_of_date : Int)
    (hfb : WeightCalculator.feedback_for_video db video_id = [])
    (hlp : WeightCalculator.last_play_started db video_id = none) :
    WeightCalculator.calculate_weight db video_id as_of_date = 1 := by
  unfold WeightCalculator.calculate_weight WeightCalculator.has_never_feedback
    WeightCalculator.liked_bonus WeightCalculator.freshness_boost
  rw [hfb, hlp]
  norm_num [WeightCalculator.BASELINE_WEIGHT]

/-! ## Claims -/

/-- C1: `generate_lineup` is idempotent per date: if a Session row already
exists for `target_date`, the call returns that session's id and leaves the
store unchanged (no new Session or PlayHistory row), regardless of all other
arguments. -/
theorem C1_generate_lineup_idempotent {σ : Type} (pick : σ → List ℝ → Nat × σ)
    (cfg : Config) (db : DB) (rng : σ) (now target_date : Int)
    (target_duration_minutes : Option Nat) (min_episodes max_episodes : Nat)
    (request_payload : Option RequestPayload) (s : Session)
    (h : db.sessions.find? (fun x => x.show_date == target_date) = some s) :
    LineupGenerator.generate_lineup pick cfg db rng now target_date
      target_duration_minutes min_episodes max_episodes request_payload
      = (some s.id, db) := by
  unfold LineupGenerator.generate_lineup
  rw [h]

/-- Witness for C1 at a concrete store with an existing session for date 5. -/
theorem C1_witness :
    LineupGenerator.generate_lineup pickZero defaultCfg sessionExistsDB () 0 5
      none 3 5 none = (some 7, sessionExistsDB) :=
  C1_generate_lineup_idempotent pickZero defaultCfg sessionExistsDB () 0 5
    none 3 5 none
    { id := 7, show_date := 5, status := SessionStatus.planned,
      intro_path := none, outro_path := none, total_duration_seconds := 300 }
    (by decide)

/-- C2: any video with a NEVER-rated feedback attached to one of its
play-history rows has weight exactly 0.0, for every `as_of_date` and
regardless of any other feedback or play recency. -/
theorem C2_never_feedback_zero_weight (db : DB) (video_id : Nat) (as_of_date : Int)
    (h : WeightCalculator.has_never_feedback db video_id = true) :
    WeightCalculator.calculate_weight db video_id as_of_date = 0 := by
  unfold WeightCalculator.calculate_weight
  rw [if_pos h]
  rfl

/-- Witness for C2 at a concrete store with a NEVER feedback on video 1. -/
theorem C2_witness : WeightCalculator.calculate_weight neverFeedbackDB 1 100 = 0 :=
  C2_never_feedback_zero_weight neverFeedbackDB 1 100 (by decide)

/-- C9: `parse("today one blueie and two throw throw")` with the keyword map
blueie → Bluey, "throw throw" → Throw_Throw_Burrito returns day offset 0 and
the requests [(Bluey, 1), (Throw_Throw_Burrito, 2)] in that order, for every
library series list and every fuzzy matcher (both resolutions hit the
keyword map). -/
theorem C9_parse_two_requests (all_series : List Str)
    (fuzzy : Str → List Str → Option Str) :
    RequestParsing.parse
      [(str "blueie", str "Bluey"), (str "throw throw", str "Throw_Throw_Burrito")]
      all_series fuzzy (str "today one blueie and two throw throw")
      = (0, [{ series := str "Bluey", count := 1 },
             { series := str "Throw_Throw_Burrito", count := 2 }]) := by
  rfl

/-- The LIKED bonus of a video whose joined feedback list is a single LIKED
feedback row. -/
theorem liked_bonus_single (db : DB) (video_id : Nat) (as_of_date : Int)
    (f : Feedback)
    (hfb : WeightCalculator.feedback_for_video db video_id = [f])
    (hr : f.rating = Rating.liked) :
    WeightCalculator.liked_bonus db video_id as_of_date
      = (1 / 2) * (1 / 2 : ℝ) ^ (((as_of_date - f.submitted_at : Int) : ℝ) / 7) := by
  unfold WeightCalculator.liked_bonus WeightCalculator.decay_factor
  rw [hfb]
  simp only [List.filter_cons, List.filter_nil, hr, beq_self_eq_true, if_true,
    List.map_cons, List.map_nil, List.sum_cons, List.sum_nil, add_zero]
  norm_num [WeightCalculator.LIKED_BONUS, WeightCalculator.DECAY_HALF_LIFE_DAYS]

/-- The freshness boost when the most recent completed play is more than
14 days old. -/
theorem freshness_boost_of_old_play (db : DB) (video_id : Nat) (as_of_date t : Int)
    (hlp : WeightCalculator.last_play_started db video_id = some t)
    (h14 : 14 < as_of_date - t) :
    WeightCalculator.freshness_boost db video_id as_of_date
      = min (((as_of_date - t - 14 : Int) : ℝ) / 100) (1 / 2) := by
  unfold WeightCalculator.freshness_boost
  rw [hlp]
  dsimp only
  rw [if_pos h14]

/-- C4 (amended): a video whose entire feedback history is exactly one LIKED
feedback submitted `d` days before `as_of_date` has weight
`1 + 0.5 * 0.5 ^ (d / 7)` — provided its most recent completed play (if any)
is at most 14 days old, so that the freshness boost does not fire. -/
theorem C4_single_liked_weight (db : DB) (video_id : Nat) (as_of_date d : Int)
    (f : Feedback)
    (hfb : WeightCalculator.feedback_for_video db video_id = [f])
    (hr : f.rating = Rating.liked)
    (hd : as_of_date - f.submitted_at = d)
    (hboost : ∀ t, WeightCalculator.last_play_started db video_id = some t →
      as_of_date - t ≤ 14) :
    WeightCalculator.calculate_weight db video_id as_of_date
      = 1 + (1 / 2) * (1 / 2 : ℝ) ^ ((d : ℝ) / 7) := by
  have hnev : WeightCalculator.has_never_feedback db video_id = false := by
    unfold WeightCalculator.has_never_feedback
    rw [hfb]
    simp [hr]
  have hc : ((as_of_date - f.submitted_at : Int) : ℝ) = (d : ℝ) := by rw [hd]
  have hbon := liked_bonus_single db video_id as_of_date f hfb hr
  rw [hc] at hbon
  have hfres : WeightCalculator.freshness_boost db video_id as_of_date = 0 := by
    unfold WeightCalculator.freshness_boost
    cases hlp : WeightCalculator.last_play_started db video_id with
    | none => rfl
    | some t =>
      have ht := hboost t hlp
      dsimp only
      rw [if_neg (by omega)]
  unfold WeightCalculator.calculate_weight
  rw [if_neg (by simp [hnev]), hbon, hfres, WeightCalculator.BASELINE_WEIGHT]
  ring

/-- Counterexample to C4 as stated: in `likedWithOldPlayDB` video 1's entire
feedback history is exactly one LIKED feedback submitted 0 days before the
query date, yet its weight is not `1 + 0.5 * 0.5 ^ (0 / 7)` — the video also
has a 30-day-old completed play, so the freshness boost adds 0.16 on top. -/
theorem C4_counterexample :
    WeightCalculator.calculate_weight likedWithOldPlayDB 1 0
      ≠ 1 + (1 / 2) * (1 / 2 : ℝ) ^ (((0 : Int) : ℝ) / 7) := by
  have hnev : WeightCalculator.has_never_feedback likedWithOldPlayDB 1 = false := by
    decide
  have hbon := liked_bonus_single likedWithOldPlayDB 1 0
    { id := 1, play_history_id := 1, rating := Rating.liked, submitted_at := 0 }
    (by decide) rfl
  have hfr := freshness_boost_of_old_play likedWithOldPlayDB 1 0 (-30)
    (by decide) (by norm_num)
  unfold WeightCalculator.calculate_weight
  rw [if_neg (by simp [hnev]), hbon, hfr, WeightCalculator.BASELINE_WEIGHT]
  rw [show (((0 : Int) - (0 : Int) : Int) : ℝ) / 7 = 0 by norm_num,
    show (((0 : Int) : ℝ)) / 7 = 0 by norm_num, Real.rpow_zero,
    show (((0 : Int) - (-30 : Int) - 14 : Int) : ℝ) = 16 by norm_num]
  norm_num [min_def]

/-- Witness for C4 (amended) at `singleLikedDB`, 7 days after the feedback. -/
theorem C4_witness :
    WeightCalculator.calculate_weight singleLikedDB 1 7
      = 1 + (1 / 2) * (1 / 2 : ℝ) ^ (((7 : Int) : ℝ) / 7) :=
  C4_single_liked_weight singleLikedDB 1 7 7
    { id := 1, play_history_id := 1, rating := Rating.liked, submitted_at := 0 }
    (by decide) rfl (by decide)
    (fun t ht => by
      rw [show WeightCalculator.last_play_started singleLikedDB 1 = none from by decide] at ht
      exact Option.noConfusion ht)

/-- C8 (amended): for a video with no completed play (so the freshness boost
never fires), `calculate_weight` is monotonically non-increasing in the
as-of date: the LIKED decay never reverses. -/
theorem C8_weight_antitone_without_play (db : DB) (video_id : Nat)
    (a1 a2 : Int)
    (hlp : WeightCalculator.last_play_started db video_id = none)
    (h : a1 ≤ a2) :
    WeightCalculator.calculate_weight db video_id a2
      ≤ WeightCalculator.calculate_weight db video_id a1 := by
  unfold WeightCalculator.calculate_weight
  by_cases hn : WeightCalculator.has_never_feedback db video_id = true
  · rw [if_pos hn, if_pos hn]
  · rw [if_neg hn, if_neg hn]
    have hf : ∀ a, WeightCalculator.freshness_boost db video_id a = 0 := by
      intro a
      unfold WeightCalculator.freshness_boost
      rw [hlp]
    rw [hf, hf]
    have hb : WeightCalculator.liked_bonus db video_id a2
        ≤ WeightCalculator.liked_bonus db video_id a1 := by
      unfold WeightCalculator.liked_bonus
      apply List.sum_le_sum
      intro f _
      apply mul_le_mul_of_nonneg_left _ (by norm_num [WeightCalculator.LIKED_BONUS])
      unfold WeightCalculator.decay_factor
      apply Real.rpow_le_rpow_of_exponent_ge (by norm_num) (by norm_num)
      apply (div_le_div_iff_of_pos_right
        (by norm_num [WeightCalculator.DECAY_HALF_LIFE_DAYS] :
          (0 : ℝ) < (WeightCalculator.DECAY_HALF_LIFE_DAYS : ℝ))).mpr
      exact_mod_cast sub_le_sub_right h f.submitted_at
    exact add_le_add (add_le_add_left hb _) le_rfl

/-- Witness for C8 (amended) at `singleLikedDB`: the weight 7 days after the
LIKED feedback is at most the weight on the feedback day. -/
theorem C8_witness :
    WeightCalculator.calculate_weight singleLikedDB 1 7
      ≤ WeightCalculator.calculate_weight singleLikedDB 1 0 :=
  C8_weight_antitone_without_play singleLikedDB 1 0 7 (by decide) (by decide)

/-- Counterexample to C8 as stated: in `likedPlayedDB` video 1 has a LIKED
feedback (day 0), yet its weight 35 days later is strictly greater than its
weight 28 days later — the freshness boost (+0.01 per day) outgrows the
nearly-exhausted LIKED decay, so the weight is not non-increasing in the
elapsed days. -/
theorem C8_counterexample :
    WeightCalculator.calculate_weight likedPlayedDB 1 28
      < WeightCalculator.calculate_weight likedPlayedDB 1 35 := by
  have hnev : WeightCalculator.has_never_feedback likedPlayedDB 1 = false := by
    decide
  have hb28 := liked_bonus_single likedPlayedDB 1 28
    { id := 1, play_history_id := 1, rating := Rating.liked, submitted_at := 0 }
    (by decide) rfl
  have hb35 := liked_bonus_single likedPlayedDB 1 35
    { id := 1, play_history_id := 1, rating := Rating.liked, submitted_at := 0 }
    (by decide) rfl
  have hf28 := freshness_boost_of_old_play likedPlayedDB 1 28 0
    (by decide) (by norm_num)
  have hf35 := freshness_boost_of_old_play likedPlayedDB 1 35 0
    (by decide) (by norm_num)
  unfold WeightCalculator.calculate_weight
  rw [if_neg (by simp [hnev]), if_neg (by simp [hnev]), hb28, hb35, hf28, hf35,
    WeightCalculator.BASELINE_WEIGHT]
  rw [show (((28 : Int) - (0 : Int) : Int) : ℝ) / 7 = ((4 : ℕ) : ℝ) by push_cast; norm_num,
    show (((35 : Int) - (0 : Int) : Int) : ℝ) / 7 = ((5 : ℕ) : ℝ) by push_cast; norm_num,
    Real.rpow_natCast, Real.rpow_natCast,
    show (((28 : Int) - (0 : Int) - 14 : Int) : ℝ) = 14 by norm_num,
    show (((35 : Int) - (0 : Int) - 14 : Int) : ℝ) = 21 by norm_num]
  norm_num [min_def]

/-- A `getD` at an index reduced mod the length of a nonempty list is a
member of the list (the model of `random.choices` always picks a member). -/
theorem getD_mod_mem {α : Type} [Inhabited α] (l : List α) (i : Nat) (h : l ≠ []) :
    l.getD (i % l.length) default ∈ l := by
  have hl : 0 < l.length := List.length_pos.mpr h
  have hm : i % l.length < l.length := Nat.mod_lt _ hl
  rw [List.getD_eq_getElem l default hm]
  exact List.getElem_mem hm

/-- The diverse candidates are drawn from the remaining pool. -/
theorem diverse_candidates_subset {σ : Type} (st : LineupGenerator.SelState σ) (min_episodes : Nat) :
    ∀ y ∈ LineupGenerator.diverse_candidates st min_episodes, y ∈ st.valid := by
  unfold LineupGenerator.diverse_candidates
  dsimp only
  split
  · exact fun y hy => hy
  · exact fun y hy => List.filter_subset' _ hy

/-- `fulfill_request` only shrinks the pool and only appends members of the
series-candidate list to the selection. -/
theorem fulfill_request_closure {σ : Type} (pick : σ → List ℝ → Nat × σ)
    (weights : Nat → ℝ) (V : List Video) :
    ∀ (n : Nat) (sc : List Video) (st : LineupGenerator.SelState σ), (∀ y ∈ sc, y ∈ V) →
      (∀ y ∈ (LineupGenerator.fulfill_request pick weights n sc st).valid,
        y ∈ st.valid) ∧
      (∀ y ∈ (LineupGenerator.fulfill_request pick weights n sc st).selected,
        y ∈ st.selected ∨ y ∈ V) := by
  intro n
  induction n with
  | zero =>
    intro sc st _
    exact ⟨fun y hy => by simpa [LineupGenerator.fulfill_request] using hy,
      fun y hy => Or.inl (by simpa [LineupGenerator.fulfill_request] using hy)⟩
  | succ n ih =>
    intro sc st hsc
    cases sc with
    | nil =>
      exact ⟨fun y hy => by simpa [LineupGenerator.fulfill_request] using hy,
        fun y hy => Or.inl (by simpa [LineupGenerator.fulfill_request] using hy)⟩
    | cons a as =>
      simp only [LineupGenerator.fulfill_request]
      by_cases hs : ((a :: as).map (fun v => weights v.id)).sum = 0
      · rw [if_pos hs]
        exact ⟨fun y hy => hy, fun y hy => Or.inl hy⟩
      · rw [if_neg hs]
        set C := (a :: as).getD
          ((pick st.rng ((a :: as).map (fun v => weights v.id))).1 % (a :: as).length)
          default with hCdef
        have hch : C ∈ a :: as := by
          rw [hCdef]
          exact getD_mod_mem _ _ (List.cons_ne_nil a as)
        obtain ⟨ihv, ihs⟩ := ih ((a :: as).erase C)
          { valid := st.valid.erase C
            selected := st.selected ++ [C]
            total := st.total + (C.duration_seconds : Int)
            used := (C.series, C.season) :: st.used
            rng := (pick st.rng ((a :: as).map (fun v => weights v.id))).2 }
          (fun y hy => hsc y (List.mem_of_mem_erase hy))
        refine ⟨fun y hy => ?_, fun y hy => ?_⟩
        · exact List.mem_of_mem_erase (ihv y hy)
        · rcases ihs y hy with h | h
          · rcases List.mem_append.mp h with h2 | h2
            · exact Or.inl h2
            · right
              rw [List.mem_singleton.mp h2]
              exact hsc _ hch
          · exact Or.inr h

/-- `fulfill_requests` keeps the pool inside `V` and only appends members of
`V` to the selection. -/
theorem fulfill_requests_closure {σ : Type} (pick : σ → List ℝ → Nat × σ)
    (weights : Nat → ℝ) (V : List Video) :
    ∀ (reqs : List SeriesRequest) (st : LineupGenerator.SelState σ), (∀ y ∈ st.valid, y ∈ V) →
      (∀ y ∈ (LineupGenerator.fulfill_requests pick weights reqs st).valid, y ∈ V) ∧
      (∀ y ∈ (LineupGenerator.fulfill_requests pick weights reqs st).selected,
        y ∈ st.selected ∨ y ∈ V) := by
  intro reqs
  induction reqs with
  | nil =>
    intro st hV
    exact ⟨fun y hy => hV y (by simpa [LineupGenerator.fulfill_requests] using hy),
      fun y hy => Or.inl (by simpa [LineupGenerator.fulfill_requests] using hy)⟩
  | cons req rest ih =>
    intro st hV
    simp only [LineupGenerator.fulfill_requests]
    have hsc : ∀ y ∈ st.valid.filter (fun v => v.series == req.series), y ∈ V :=
      fun y hy => hV y (List.filter_subset' _ hy)
    obtain ⟨h1v, h1s⟩ := fulfill_request_closure pick weights V req.count
      (st.valid.filter (fun v => v.series == req.series)) st hsc
    obtain ⟨ihv, ihs⟩ := ih
      (LineupGenerator.fulfill_request pick weights req.count
        (st.valid.filter (fun v => v.series == req.series)) st)
      (fun y hy => hV y (h1v y hy))
    refine ⟨ihv, fun y hy => ?_⟩
    rcases ihs y hy with h | h
    · rcases h1s y h with h2 | h2
      · exact Or.inl h2
      · exact Or.inr h2
    · exact Or.inr h

/-- `fill_episodes` only appends members of `V` to the selection when the
pool lies inside `V`. -/
theorem fill_episodes_closure {σ : Type} (pick : σ → List ℝ → Nat × σ)
    (weights : Nat → ℝ) (avail : Int) (minE maxE : Nat) (V : List Video) :
    ∀ (fuel : Nat) (st : LineupGenerator.SelState σ), (∀ y ∈ st.valid, y ∈ V) →
      ∀ y ∈ (LineupGenerator.fill_episodes pick weights avail minE maxE fuel st).selected,
        y ∈ st.selected ∨ y ∈ V := by
  intro fuel
  induction fuel with
  | zero =>
    intro st _ y hy
    exact Or.inl (by simpa [LineupGenerator.fill_episodes] using hy)
  | succ fuel ih =>
    intro st hV
    simp only [LineupGenerator.fill_episodes]
    by_cases h1 : st.selected.length < maxE
    · rw [if_pos h1]
      dsimp only
      by_cases h2 : (LineupGenerator.diverse_candidates st minE).isEmpty = true
      · rw [if_pos h2]
        exact fun y hy => Or.inl hy
      · rw [if_neg h2]
        by_cases h3 : ((LineupGenerator.diverse_candidates st minE).map
            (fun v => weights v.id)).sum = 0
        · rw [if_pos h3]
          exact fun y hy => Or.inl hy
        · rw [if_neg h3]
          have hne : LineupGenerator.diverse_candidates st minE ≠ [] := by
            intro h
            rw [h] at h2
            exact h2 rfl
          set C := (LineupGenerator.diverse_candidates st minE).getD
            ((pick st.rng ((LineupGenerator.diverse_candidates st minE).map
              (fun v => weights v.id))).1
              % (LineupGenerator.diverse_candidates st minE).length)
            default with hCdef
          have hch : C ∈ V := by
            rw [hCdef]
            exact hV _ (diverse_candidates_subset st minE _ (getD_mod_mem _ _ hne))
          by_cases h4 : st.total + (C.duration_seconds : Int) ≤ avail + 60
          · rw [if_pos h4]
            by_cases h5 : minE ≤ (st.selected ++ [C]).length ∧
                |st.total + (C.duration_seconds : Int) - avail| < 60
            · rw [if_pos h5]
              intro y hy
              rcases List.mem_append.mp hy with h6 | h6
              · exact Or.inl h6
              · right
                rw [List.mem_singleton.mp h6]
                exact hch
            · rw [if_neg h5]
              intro y hy
              rcases ih
                { valid := st.valid.erase C
                  selected := st.selected ++ [C]
                  total := st.total + (C.duration_seconds : Int)
                  used := (C.series, C.season) :: st.used
                  rng := (pick st.rng ((LineupGenerator.diverse_candidates st minE).map
                    (fun v => weights v.id))).2 }
                (fun z hz => hV z (List.mem_of_mem_erase hz)) y hy with h6 | h6
              · rcases List.mem_append.mp h6 with h7 | h7
                · exact Or.inl h7
                · right
                  rw [List.mem_singleton.mp h7]
                  exact hch
              · exact Or.inr h6
          · rw [if_neg h4]
            intro y hy
            exact ih
              { valid := st.valid.erase C
                selected := st.selected
                total := st.total
                used := st.used
                rng := (pick st.rng ((LineupGenerator.diverse_candidates st minE).map
                  (fun v => weights v.id))).2 }
              (fun z hz => hV z (List.mem_of_mem_erase hz)) y hy
    · rw [if_neg h1]
      exact fun y hy => Or.inl hy

/-- Everything `_select_episodes` selects comes from the positive-weight
filtering of the candidate pool. -/
theorem select_episodes_subset {σ : Type} (pick : σ → List ℝ → Nat × σ)
    (candidates : List Video) (weights : Nat → ℝ) (avail : Int)
    (minE maxE : Nat) (reqs : List SeriesRequest) (rng : σ) :
    ∀ v ∈ (LineupGenerator.select_episodes pick candidates weights avail minE maxE reqs rng).1,
      v ∈ candidates.filter (fun u => decide (0 < weights u.id)) := by
  intro v hv
  unfold LineupGenerator.select_episodes at hv
  dsimp only at hv
  obtain ⟨h1v, h1s⟩ := fulfill_requests_closure pick weights
    (candidates.filter (fun u => decide (0 < weights u.id))) reqs
    { valid := candidates.filter (fun u => decide (0 < weights u.id))
      selected := [], total := 0, used := [], rng := rng }
    (fun y hy => hy)
  rcases fill_episodes_closure pick weights avail minE maxE _ _ _ h1v v hv with h | h
  · rcases h1s v h with h2 | h2
    · simp at h2
    · exact h2
  · exact h

/-- The play-history rows `create_session` adds carry exactly the selected
videos' ids, in selection order. -/
theorem new_play_video_ids_create (db : DB) (d : Int) (sel : List Video)
    (ip op : Option Str) :
    new_play_video_ids db (LineupGenerator.create_session db d sel ip op).2
      = sel.map (fun v => v.id) := by
  unfold new_play_video_ids LineupGenerator.create_session
  dsimp only
  rw [List.drop_left, List.map_map]
  rw [show ((fun r : PlayHistory => r.video_id) ∘ fun kv : Nat × Video =>
      ({ id := db.next_play_history_id + kv.1, session_id := db.next_session_id,
         video_id := kv.2.id, slot_order := kv.1 + 1, started_at := none,
         completed := false } : PlayHistory))
      = ((fun v : Video => v.id) ∘ Prod.snd) from rfl]
  rw [← List.map_map, List.enum_map_snd]

/-- The request multiplier cannot resurrect a zero weight: `3 * 0 = 0`. -/
theorem apply_request_multiplier_zero (candidates : List Video)
    (reqs : List SeriesRequest) (weights : Nat → ℝ) (i : Nat)
    (h : weights i = 0) :
    LineupGenerator.apply_request_multiplier candidates reqs weights i = 0 := by
  induction reqs generalizing weights with
  | nil => exact h
  | cons r rs ih =>
    simp only [LineupGenerator.apply_request_multiplier] at ih ⊢
    rw [List.foldl_cons]
    apply ih
    dsimp only
    simp [h]

/-- Every video id a `generate_lineup` call adds to the play history belongs
to a candidate-pool video whose boosted weight is positive. -/
theorem generate_lineup_new_rows {σ : Type} (pick : σ → List ℝ → Nat × σ)
    (cfg : Config) (db : DB) (rng : σ) (now target_date : Int)
    (tdm : Option Nat) (minE maxE : Nat) (payload : Option RequestPayload) :
    ∀ i ∈ new_play_video_ids db
      (LineupGenerator.generate_lineup pick cfg db rng now target_date
        tdm minE maxE payload).2,
      ∃ v, v ∈ LineupGenerator.build_candidate_pool db now cfg.repeat_cooldown_days
          (LineupGenerator.normalize_requests payload) ∧
        0 < LineupGenerator.apply_request_multiplier
            (LineupGenerator.build_candidate_pool db now cfg.repeat_cooldown_days
              (LineupGenerator.normalize_requests payload))
            (LineupGenerator.normalize_requests payload)
            (WeightCalculator.calculate_weights_batch db now) v.id ∧
        i = v.id := by
  intro i hi
  unfold LineupGenerator.generate_lineup at hi
  cases hfind : db.sessions.find? (fun s => s.show_date == target_date) with
  | some s =>
    rw [hfind] at hi
    simp [new_play_video_ids, List.drop_length] at hi
  | none =>
    rw [hfind] at hi
    dsimp only at hi
    by_cases hc : (LineupGenerator.build_candidate_pool db now cfg.repeat_cooldown_days
        (LineupGenerator.normalize_requests payload)).isEmpty = true
    · rw [if_pos hc] at hi
      simp [new_play_video_ids, List.drop_length] at hi
    · rw [if_neg hc] at hi
      by_cases hs : (LineupGenerator.select_episodes pick
          (LineupGenerator.build_candidate_pool db now cfg.repeat_cooldown_days
            (LineupGenerator.normalize_requests payload))
          (LineupGenerator.apply_request_multiplier
            (LineupGenerator.build_candidate_pool db now cfg.repeat_cooldown_days
              (LineupGenerator.normalize_requests payload))
            (LineupGenerator.normalize_requests payload)
            (WeightCalculator.calculate_weights_batch db now))
          (LineupGenerator.available_duration cfg tdm) minE maxE
          (LineupGenerator.normalize_requests payload) rng).1.isEmpty = true
      · rw [if_pos hs] at hi
        simp [new_play_video_ids, List.drop_length] at hi
      · rw [if_neg hs] at hi
        dsimp only at hi
        rw [new_play_video_ids_create] at hi
        obtain ⟨v, hvsel, hvid⟩ := List.mem_map.mp hi
        have hsub := select_episodes_subset pick
          (LineupGenerator.build_candidate_pool db now cfg.repeat_cooldown_days
            (LineupGenerator.normalize_requests payload))
          (LineupGenerator.apply_request_multiplier
            (LineupGenerator.build_candidate_pool db now cfg.repeat_cooldown_days
              (LineupGenerator.normalize_requests payload))
            (LineupGenerator.normalize_requests payload)
            (WeightCalculator.calculate_weights_batch db now))
          (LineupGenerator.available_duration cfg tdm) minE maxE
          (LineupGenerator.normalize_requests payload) rng v hvsel
        obtain ⟨hvpool, hvw⟩ := List.mem_filter.mp hsub
        exact ⟨v, hvpool, of_decide_eq_true hvw, hvid.symm⟩

/-- C5: a video with a completed play started inside the cooldown window
before generation time is never put into a lineup generated by a call whose
request payload contains no request for that video's series: the cooldown
exclusion removes it from the candidate pool, and only an explicit request
for its series exempts it. -/
theorem C5_cooldown_excludes {σ : Type} (pick : σ → List ℝ → Nat × σ)
    (cfg : Config) (db : DB) (rng : σ) (now target_date : Int)
    (tdm : Option Nat) (minE maxE : Nat) (payload : Option RequestPayload)
    (vid : Nat)
    (hplayed : ∃ p ∈ db.play_history, p.video_id = vid ∧ p.completed = true ∧
      ∃ t, p.started_at = some t ∧ now - (cfg.repeat_cooldown_days : Int) ≤ t)
    (hser : ∀ v ∈ db.videos, v.id = vid →
      ∀ r ∈ LineupGenerator.normalize_requests payload, r.series ≠ v.series) :
    vid ∉ new_play_video_ids db
      (LineupGenerator.generate_lineup pick cfg db rng now target_date
        tdm minE maxE payload).2 := by
  intro hmem
  obtain ⟨v, hvpool, _, hvid⟩ :=
    generate_lineup_new_rows pick cfg db rng now target_date tdm minE maxE payload vid hmem
  unfold LineupGenerator.build_candidate_pool at hvpool
  dsimp only at hvpool
  obtain ⟨hvle, hvcond⟩ := List.mem_filter.mp hvpool
  have hv_videos : v ∈ db.videos := by
    unfold LineupGenerator.list_episodes at hvle
    exact List.filter_subset' _ ((List.mem_insertionSort LineupGenerator.videoLE).mp hvle)
  obtain ⟨p, hp_mem, hp_vid, hp_comp, t, hp_start, hp_le⟩ := hplayed
  have hrecent : ((db.play_history.filter (fun p =>
      (match p.started_at with
       | some t => decide (now - (cfg.repeat_cooldown_days : Int) ≤ t)
       | none => false) && p.completed)).map (fun p => p.video_id)).contains v.id
      = true := by
    have hpmem : p ∈ db.play_history.filter (fun p =>
        (match p.started_at with
         | some t => decide (now - (cfg.repeat_cooldown_days : Int) ≤ t)
         | none => false) && p.completed) := by
      refine List.mem_filter.mpr ⟨hp_mem, ?_⟩
      rw [hp_start, hp_comp]
      simp only [Bool.and_true]
      exact decide_eq_true hp_le
    have : v.id ∈ (db.play_history.filter (fun p =>
        (match p.started_at with
         | some t => decide (now - (cfg.repeat_cooldown_days : Int) ≤ t)
         | none => false) && p.completed)).map (fun p => p.video_id) :=
      List.mem_map.mpr ⟨p, hpmem, by rw [hp_vid, hvid]⟩
    simpa using this
  rw [hrecent] at hvcond
  simp only [Bool.not_true, Bool.or_false] at hvcond
  obtain ⟨sname, hsname_mem, hsname_eq⟩ := List.mem_map.mp (by simpa using hvcond)
  exact hser v hv_videos hvid.symm sname hsname_mem (by rw [hsname_eq])

/-- Witness for C5: in `cooldownDB` video 1 was completed at day 0; a
request-free generation at day 5 (cooldown 14) never schedules it again. -/
theorem C5_witness :
    1 ∉ new_play_video_ids cooldownDB
      (LineupGenerator.generate_lineup pickZero defaultCfg cooldownDB () 5 9
        none 3 5 none).2 :=
  C5_cooldown_excludes pickZero defaultCfg cooldownDB () 5 9 none 3 5 none 1
    (by decide) (by decide)

/-- C10: a video whose computed natural weight is 0.0 is never selected into
a generated lineup, for every request payload: the 3.0 request-affinity
multiplier preserves zero, and zero-weight candidates are removed from the
selection pool before both selection passes, so an explicit request cannot
resurrect it (in particular a NEVER-rated video, whose weight is 0 by the
NEVER rule, is never resurrected). -/
theorem C10_zero_weight_never_selected {σ : Type} (pick : σ → List ℝ → Nat × σ)
    (cfg : Config) (db : DB) (rng : σ) (now target_date : Int)
    (tdm : Option Nat) (minE maxE : Nat) (payload : Option RequestPayload)
    (vid : Nat)
    (hw : WeightCalculator.calculate_weight db vid now = 0) :
    vid ∉ new_play_video_ids db
      (LineupGenerator.generate_lineup pick cfg db rng now target_date
        tdm minE maxE payload).2 := by
  intro hmem
  obtain ⟨v, _, hvw, hvid⟩ :=
    generate_lineup_new_rows pick cfg db rng now target_date tdm minE maxE payload vid hmem
  rw [← hvid] at hvw
  rw [apply_request_multiplier_zero _ _ _ _ hw] at hvw
  exact lt_irrefl 0 hvw

/-- Witness for C10: in `neverFeedbackDB` video 1 is NEVER-rated (weight 0);
even a generation whose payload explicitly requests its series never
schedules it. -/
theorem C10_witness :
    1 ∉ new_play_video_ids neverFeedbackDB
      (LineupGenerator.generate_lineup pickZero defaultCfg neverFeedbackDB () 0 0
        none 3 5 (some (RequestPayload.requestList [{ series := str "Bluey", count := 2 }]))).2 :=
  C10_zero_weight_never_selected pickZero defaultCfg neverFeedbackDB () 0 0
    none 3 5 (some (RequestPayload.requestList [{ series := str "Bluey", count := 2 }])) 1
    (by
      unfold WeightCalculator.calculate_weight
      rw [if_pos (by decide)]
      rfl)

/-- Weights depend only on the play-history and feedback tables. -/
theorem calculate_weight_ext (db1 db2 : DB)
    (hp : db1.play_history = db2.play_history)
    (hf : db1.feedback = db2.feedback) :
    WeightCalculator.calculate_weight db1 = WeightCalculator.calculate_weight db2 := by
  funext vid as_of
  unfold WeightCalculator.calculate_weight WeightCalculator.has_never_feedback
    WeightCalculator.liked_bonus WeightCalculator.freshness_boost
    WeightCalculator.last_play_started WeightCalculator.completed_play_starts
    WeightCalculator.feedback_for_video
  rw [hp, hf]

/-- The candidate pool depends only on the video and play-history tables. -/
theorem build_candidate_pool_ext (db1 db2 : DB)
    (hv : db1.videos = db2.videos)
    (hp : db1.play_history = db2.play_history)
    (now : Int) (cd : Nat) (reqs : List SeriesRequest) :
    LineupGenerator.build_candidate_pool db1 now cd reqs
      = LineupGenerator.build_candidate_pool db2 now cd reqs := by
  unfold LineupGenerator.build_candidate_pool LineupGenerator.list_episodes
  rw [hv, hp]

/-- C6: generation is deterministic under the injected random source: two
independent calls with the same picker, generator state, configuration and
arguments, on stores agreeing on videos, play history and feedback (the
inputs that determine candidate pool and weights), for two dates neither of
which is already scheduled, add play-history rows with identical video ids
in identical order. -/
theorem C6_deterministic_same_seed {σ : Type} (pick : σ → List ℝ → Nat × σ)
    (cfg : Config) (db1 db2 : DB) (rng : σ) (now d1 d2 : Int)
    (tdm : Option Nat) (minE maxE : Nat) (payload : Option RequestPayload)
    (hv : db1.videos = db2.videos)
    (hp : db1.play_history = db2.play_history)
    (hf : db1.feedback = db2.feedback)
    (h1 : db1.sessions.find? (fun s => s.show_date == d1) = none)
    (h2 : db2.sessions.find? (fun s => s.show_date == d2) = none) :
    new_play_video_ids db1
      (LineupGenerator.generate_lineup pick cfg db1 rng now d1 tdm minE maxE payload).2
      = new_play_video_ids db2
        (LineupGenerator.generate_lineup pick cfg db2 rng now d2 tdm minE maxE payload).2 := by
  have hwb : WeightCalculator.calculate_weights_batch db1 now
      = WeightCalculator.calculate_weights_batch db2 now := by
    unfold WeightCalculator.calculate_weights_batch
    rw [calculate_weight_ext db1 db2 hp hf]
  have hpool := build_candidate_pool_ext db1 db2 hv hp now cfg.repeat_cooldown_days
    (LineupGenerator.normalize_requests payload)
  unfold LineupGenerator.generate_lineup
  rw [h1, h2]
  dsimp only
  rw [hpool, hwb]
  by_cases hc : (LineupGenerator.build_candidate_pool db2 now cfg.repeat_cooldown_days
      (LineupGenerator.normalize_requests payload)).isEmpty = true
  · rw [if_pos hc, if_pos hc]
    simp [new_play_video_ids, List.drop_length]
  · rw [if_neg hc, if_neg hc]
    by_cases hs : (LineupGenerator.select_episodes pick
        (LineupGenerator.build_candidate_pool db2 now cfg.repeat_cooldown_days
          (LineupGenerator.normalize_requests payload))
        (LineupGenerator.apply_request_multiplier
          (LineupGenerator.build_candidate_pool db2 now cfg.repeat_cooldown_days
            (LineupGenerator.normalize_requests payload))
          (LineupGenerator.normalize_requests payload)
          (WeightCalculator.calculate_weights_batch db2 now))
        (LineupGenerator.available_duration cfg tdm) minE maxE
        (LineupGenerator.normalize_requests payload) rng).1.isEmpty = true
    · rw [if_pos hs, if_pos hs]
      simp [new_play_video_ids, List.drop_length]
    · rw [if_neg hs, if_neg hs]
      dsimp only
      rw [new_play_video_ids_create, new_play_video_ids_create]

/-- Witness for C6: the same one-video store generated for dates 0 and 1
selects the same ids. -/
theorem C6_witness :
    new_play_video_ids oneVideoDB
      (LineupGenerator.generate_lineup pickZero defaultCfg oneVideoDB () 0 0
        none 3 5 none).2
      = new_play_video_ids oneVideoDB
        (LineupGenerator.generate_lineup pickZero defaultCfg oneVideoDB () 0 1
          none 3 5 none).2 :=
  C6_deterministic_same_seed pickZero defaultCfg oneVideoDB oneVideoDB () 0 0 1
    none 3 5 none rfl rfl rfl (by decide) (by decide)

/-- Appending one video adds its duration to the summed duration. -/
theorem sumDur_append_singleton (l : List Video) (v : Video) :
    sumDur (l ++ [v]) = sumDur l + (v.duration_seconds : Int) := by
  unfold sumDur
  rw [List.map_append, List.sum_append]
  push_cast
  simp

/-- The fill loop keeps `total` equal to the summed duration of the
selection, and never accepts past the 60-second overage tolerance: after it,
either nothing is selected or the total is at most `avail + 60`. -/
theorem fill_episodes_duration {σ : Type} (pick : σ → List ℝ → Nat × σ)
    (weights : Nat → ℝ) (avail : Int) (minE maxE : Nat) :
    ∀ (fuel : Nat) (st : LineupGenerator.SelState σ),
      st.total = sumDur st.selected →
      (st.selected = [] ∨ st.total ≤ avail + 60) →
      (LineupGenerator.fill_episodes pick weights avail minE maxE fuel st).total
        = sumDur (LineupGenerator.fill_episodes pick weights avail minE maxE fuel st).selected ∧
      ((LineupGenerator.fill_episodes pick weights avail minE maxE fuel st).selected = [] ∨
        (LineupGenerator.fill_episodes pick weights avail minE maxE fuel st).total
          ≤ avail + 60) := by
  intro fuel
  induction fuel with
  | zero =>
    intro st h1 h2
    simpa [LineupGenerator.fill_episodes] using ⟨h1, h2⟩
  | succ fuel ih =>
    intro st h1 h2
    simp only [LineupGenerator.fill_episodes]
    by_cases hmax : st.selected.length < maxE
    · rw [if_pos hmax]
      dsimp only
      by_cases hd : (LineupGenerator.diverse_candidates st minE).isEmpty = true
      · rw [if_pos hd]
        exact ⟨h1, h2⟩
      · rw [if_neg hd]
        by_cases hsum : ((LineupGenerator.diverse_candidates st minE).map
            (fun v => weights v.id)).sum = 0
        · rw [if_pos hsum]
          exact ⟨h1, h2⟩
        · rw [if_neg hsum]
          set C := (LineupGenerator.diverse_candidates st minE).getD
            ((pick st.rng ((LineupGenerator.diverse_candidates st minE).map
              (fun v => weights v.id))).1
              % (LineupGenerator.diverse_candidates st minE).length)
            default with hCdef
          by_cases h4 : st.total + (C.duration_seconds : Int) ≤ avail + 60
          · rw [if_pos h4]
            have h1' : st.total + (C.duration_seconds : Int)
                = sumDur (st.selected ++ [C]) := by
              rw [sumDur_append_singleton, h1]
            by_cases h5 : minE ≤ (st.selected ++ [C]).length ∧
                |st.total + (C.duration_seconds : Int) - avail| < 60
            · rw [if_pos h5]
              exact ⟨h1', Or.inr h4⟩
            · rw [if_neg h5]
              exact ih
                { valid := st.valid.erase C
                  selected := st.selected ++ [C]
                  total := st.total + (C.duration_seconds : Int)
                  used := (C.series, C.season) :: st.used
                  rng := (pick st.rng ((LineupGenerator.diverse_candidates st minE).map
                    (fun v => weights v.id))).2 }
                h1' (Or.inr h4)
          · rw [if_neg h4]
            exact ih
              { valid := st.valid.erase C
                selected := st.selected
                total := st.total
                used := st.used
                rng := (pick st.rng ((LineupGenerator.diverse_candidates st minE).map
                  (fun v => weights v.id))).2 }
              h1 h2
    · rw [if_neg hmax]
      exact ⟨h1, h2⟩

/-- With no requests, `_select_episodes` either selects nothing or keeps the
total duration within the +60-second overage bound. -/
theorem select_episodes_duration_no_requests {σ : Type}
    (pick : σ → List ℝ → Nat × σ) (candidates : List Video)
    (weights : Nat → ℝ) (avail : Int) (minE maxE : Nat) (rng : σ) :
    (LineupGenerator.select_episodes pick candidates weights avail minE maxE [] rng).1 = [] ∨
    sumDur (LineupGenerator.select_episodes pick candidates weights avail minE maxE [] rng).1
      ≤ avail + 60 := by
  unfold LineupGenerator.select_episodes
  dsimp only
  simp only [LineupGenerator.fulfill_requests]
  obtain ⟨heq, hd⟩ := fill_episodes_duration pick weights avail minE maxE
    (candidates.filter (fun v => decide (0 < weights v.id))).length
    { valid := candidates.filter (fun v => decide (0 < weights v.id))
      selected := [], total := 0, used := [], rng := rng }
    (by simp [sumDur]) (Or.inl rfl)
  rcases hd with h | h
  · exact Or.inl h
  · exact Or.inr (heq ▸ h)

/-- C7 (amended): for a request-free call, any session created by
`generate_lineup` has total duration at most `available_duration + 60` (the
60-second overage tolerance); no lower bound holds in general, because the
fill loop also stops at `max_episodes` or on pool exhaustion with the total
still far below the target. -/
theorem C7_duration_upper_bound {σ : Type} (pick : σ → List ℝ → Nat × σ)
    (cfg : Config) (db : DB) (rng : σ) (now target_date : Int)
    (tdm : Option Nat) (minE maxE : Nat) (s : Session)
    (hs : s ∈ (LineupGenerator.generate_lineup pick cfg db rng now target_date
      tdm minE maxE none).2.sessions.drop db.sessions.length) :
    (s.total_duration_seconds : Int) ≤ LineupGenerator.available_duration cfg tdm + 60 := by
  unfold LineupGenerator.generate_lineup at hs
  cases hfind : db.sessions.find? (fun x => x.show_date == target_date) with
  | some existing =>
    rw [hfind] at hs
    simp [List.drop_length] at hs
  | none =>
    rw [hfind] at hs
    dsimp only at hs
    simp only [LineupGenerator.normalize_requests] at hs
    by_cases hc : (LineupGenerator.build_candidate_pool db now cfg.repeat_cooldown_days
        ([] : List SeriesRequest)).isEmpty = true
    · rw [if_pos hc] at hs
      simp [List.drop_length] at hs
    · rw [if_neg hc] at hs
      by_cases hsel : (LineupGenerator.select_episodes pick
          (LineupGenerator.build_candidate_pool db now cfg.repeat_cooldown_days
            ([] : List SeriesRequest))
          (LineupGenerator.apply_request_multiplier
            (LineupGenerator.build_candidate_pool db now cfg.repeat_cooldown_days
              ([] : List SeriesRequest))
            ([] : List SeriesRequest)
            (WeightCalculator.calculate_weights_batch db now))
          (LineupGenerator.available_duration cfg tdm) minE maxE
          ([] : List SeriesRequest) rng).1.isEmpty = true
      · rw [if_pos hsel] at hs
        simp [List.drop_length] at hs
      · rw [if_neg hsel] at hs
        unfold LineupGenerator.create_session at hs
        dsimp only at hs
        rw [List.drop_left] at hs
        rw [List.mem_singleton.mp hs]
        dsimp only
        have hdur := select_episodes_duration_no_requests pick
          (LineupGenerator.build_candidate_pool db now cfg.repeat_cooldown_days
            ([] : List SeriesRequest))
          (LineupGenerator.apply_request_multiplier
            (LineupGenerator.build_candidate_pool db now cfg.repeat_cooldown_days
              ([] : List SeriesRequest))
            ([] : List SeriesRequest)
            (WeightCalculator.calculate_weights_batch db now))
          (LineupGenerator.available_duration cfg tdm) minE maxE rng
        rcases hdur with h | h
        · rw [h] at hsel
          simp at hsel
        · exact h

/-- One fill-loop iteration that accepts the picked candidate and does not
hit the close-enough break: the loop continues on the updated state. -/
theorem fill_episodes_step_accept {σ : Type} (pick : σ → List ℝ → Nat × σ)
    (weights : Nat → ℝ) (avail : Int) (minE maxE : Nat) (fuel n : Nat)
    (st : LineupGenerator.SelState σ) (C : Video)
    (hfuel : fuel = n + 1)
    (hmax : st.selected.length < maxE)
    (hne : (LineupGenerator.diverse_candidates st minE).isEmpty = false)
    (hsum : ((LineupGenerator.diverse_candidates st minE).map
      (fun v => weights v.id)).sum ≠ 0)
    (hC : (LineupGenerator.diverse_candidates st minE).getD
      ((pick st.rng ((LineupGenerator.diverse_candidates st minE).map
        (fun v => weights v.id))).1
        % (LineupGenerator.diverse_candidates st minE).length) default = C)
    (hfit : st.total + (C.duration_seconds : Int) ≤ avail + 60)
    (hbr : ¬(minE ≤ (st.selected ++ [C]).length ∧
      |st.total + (C.duration_seconds : Int) - avail| < 60)) :
    LineupGenerator.fill_episodes pick weights avail minE maxE fuel st
      = LineupGenerator.fill_episodes pick weights avail minE maxE n
        { valid := st.valid.erase C
          selected := st.selected ++ [C]
          total := st.total + (C.duration_seconds : Int)
          used := (C.series, C.season) :: st.used
          rng := (pick st.rng ((LineupGenerator.diverse_candidates st minE).map
            (fun v => weights v.id))).2 } := by
  subst hfuel
  simp only [LineupGenerator.fill_episodes]
  rw [if_pos hmax]
  dsimp only
  rw [if_neg (by rw [hne]; exact Bool.false_ne_true)]
  rw [if_neg hsum, hC, if_pos hfit, if_neg hbr]

/-- Full evaluation of a request-free generation over the one-video store:
a session is created with a single play-history slot. -/
theorem generate_oneVideo_eval :
    LineupGenerator.generate_lineup pickZero defaultCfg oneVideoDB () 0 0 none 3 5 none
      = (some 1,
         { videos := [soloVideo]
           sessions := [{ id := 1, show_date := 0, status := SessionStatus.planned,
                          intro_path := some (str "/intro.mp4"),
                          outro_path := some (str "/outro.mp4"),
                          total_duration_seconds := 300 }]
           play_history := [{ id := 1, session_id := 1, video_id := 1, slot_order := 1,
                              started_at := none, completed := false }]
           feedback := []
           next_session_id := 2
           next_play_history_id := 2 }) := by
  have hw : WeightCalculator.calculate_weight oneVideoDB 1 0 = 1 :=
    calculate_weight_of_no_history _ _ _ (by decide) (by decide)
  unfold LineupGenerator.generate_lineup
  rw [show oneVideoDB.sessions.find? (fun s => s.show_date == (0 : Int)) = none from rfl]
  dsimp only
  simp only [LineupGenerator.normalize_requests]
  rw [show LineupGenerator.build_candidate_pool oneVideoDB 0 defaultCfg.repeat_cooldown_days []
      = [soloVideo] from by decide]
  rw [if_neg (show ¬([soloVideo].isEmpty = true) from by decide)]
  simp only [LineupGenerator.apply_request_multiplier, List.foldl_nil]
  unfold LineupGenerator.select_episodes
  dsimp only
  simp only [LineupGenerator.fulfill_requests]
  rw [show List.filter (fun v => decide (0 < WeightCalculator.calculate_weights_batch oneVideoDB 0 v.id)) [soloVideo]
      = [soloVideo] from by
    apply List.filter_eq_self.mpr
    intro a ha
    rw [List.mem_singleton.mp ha]
    apply decide_eq_true
    rw [show WeightCalculator.calculate_weights_batch oneVideoDB 0 soloVideo.id
        = WeightCalculator.calculate_weight oneVideoDB 1 0 from rfl, hw]
    norm_num]
  rw [fill_episodes_step_accept pickZero (WeightCalculator.calculate_weights_batch oneVideoDB 0)
    (LineupGenerator.available_duration defaultCfg none) 3 5 [soloVideo].length 0
    { valid := [soloVideo], selected := [], total := 0, used := [], rng := () } soloVideo
    rfl (by decide) (by decide)
    (by
      rw [show LineupGenerator.diverse_candidates
          ({ valid := [soloVideo], selected := [], total := 0, used := [], rng := () }
            : LineupGenerator.SelState Unit) 3 = [soloVideo] from by decide]
      simp only [List.map_cons, List.map_nil, List.sum_cons, List.sum_nil, add_zero]
      rw [show WeightCalculator.calculate_weights_batch oneVideoDB 0 soloVideo.id
          = WeightCalculator.calculate_weight oneVideoDB 1 0 from rfl, hw]
      norm_num)
    rfl (by decide) (by decide)]
  simp only [LineupGenerator.fill_episodes]
  decide


/-- C3 (violation exhibited): with the default bounds `min_episodes = 3`,
`max_episodes = 5` and a library holding a single eligible candidate,
`generate_lineup` still creates a session — with exactly one play-history
row (slot_order 1), below the 3-episode minimum the claim (and the
generator's own docstring, "Ensures: 3-5 episodes") promises. -/
theorem C3_session_below_min_episodes :
    (LineupGenerator.generate_lineup pickZero defaultCfg oneVideoDB () 0 0
      none 3 5 none).1 = some 1 ∧
    ((LineupGenerator.generate_lineup pickZero defaultCfg oneVideoDB () 0 0
      none 3 5 none).2.play_history.map (fun r => r.slot_order)) = [1] ∧
    (LineupGenerator.generate_lineup pickZero defaultCfg oneVideoDB () 0 0
      none 3 5 none).2.play_history.length < 3 := by
  rw [generate_oneVideo_eval]
  exact ⟨rfl, rfl, by norm_num⟩

/-- Full evaluation of a request-free generation over the three-small-videos
store: all three 10-second episodes are selected (the pool has three distinct
(series, season) pairs, enough diversity for `min_episodes = 3`), and the
session is created with a total duration of 30 seconds. -/
theorem generate_threeSmall_eval :
    LineupGenerator.generate_lineup pickZero defaultCfg threeSmallDB () 0 0 none 3 5 none
      = (some 1,
         { videos := [alphaVideo, betaVideo, gammaVideo]
           sessions := [{ id := 1, show_date := 0, status := SessionStatus.planned,
                          intro_path := some (str "/intro.mp4"),
                          outro_path := some (str "/outro.mp4"),
                          total_duration_seconds := 30 }]
           play_history := [{ id := 1, session_id := 1, video_id := 1, slot_order := 1,
                              started_at := none, completed := false },
                            { id := 2, session_id := 1, video_id := 2, slot_order := 2,
                              started_at := none, completed := false },
                            { id := 3, session_id := 1, video_id := 3, slot_order := 3,
                              started_at := none, completed := false }]
           feedback := []
           next_session_id := 2
           next_play_history_id := 4 }) := by
  have hw1 : WeightCalculator.calculate_weight threeSmallDB 1 0 = 1 :=
    calculate_weight_of_no_history _ _ _ (by decide) (by decide)
  have hw2 : WeightCalculator.calculate_weight threeSmallDB 2 0 = 1 :=
    calculate_weight_of_no_history _ _ _ (by decide) (by decide)
  have hw3 : WeightCalculator.calculate_weight threeSmallDB 3 0 = 1 :=
    calculate_weight_of_no_history _ _ _ (by decide) (by decide)
  have step1 : LineupGenerator.fill_episodes pickZero
      (WeightCalculator.calculate_weights_batch threeSmallDB 0)
      (LineupGenerator.available_duration defaultCfg none) 3 5 3
      { valid := [alphaVideo, betaVideo, gammaVideo], selected := [], total := 0,
        used := [], rng := () }
      = LineupGenerator.fill_episodes pickZero
        (WeightCalculator.calculate_weights_batch threeSmallDB 0)
        (LineupGenerator.available_duration defaultCfg none) 3 5 2
        { valid := [betaVideo, gammaVideo], selected := [alphaVideo], total := 10,
          used := [(str "Alpha", 1)], rng := () } := by
    rw [fill_episodes_step_accept pickZero
      (WeightCalculator.calculate_weights_batch threeSmallDB 0)
      (LineupGenerator.available_duration defaultCfg none) 3 5 3 2
      { valid := [alphaVideo, betaVideo, gammaVideo], selected := [], total := 0,
        used := [], rng := () } alphaVideo
      rfl (by decide) (by decide)
      (by
        rw [show LineupGenerator.diverse_candidates
            ({ valid := [alphaVideo, betaVideo, gammaVideo], selected := [], total := 0,
               used := [], rng := () } : LineupGenerator.SelState Unit) 3
            = [alphaVideo, betaVideo, gammaVideo] from by decide]
        simp only [List.map_cons, List.map_nil, List.sum_cons, List.sum_nil, add_zero]
        rw [show WeightCalculator.calculate_weights_batch threeSmallDB 0 alphaVideo.id
            = WeightCalculator.calculate_weight threeSmallDB 1 0 from rfl, hw1,
          show WeightCalculator.calculate_weights_batch threeSmallDB 0 betaVideo.id
            = WeightCalculator.calculate_weight threeSmallDB 2 0 from rfl, hw2,
          show WeightCalculator.calculate_weights_batch threeSmallDB 0 gammaVideo.id
            = WeightCalculator.calculate_weight threeSmallDB 3 0 from rfl, hw3]
        norm_num)
      rfl (by decide) (by decide)]
    congr 1
  have step2 : LineupGenerator.fill_episodes pickZero
      (WeightCalculator.calculate_weights_batch threeSmallDB 0)
      (LineupGenerator.available_duration defaultCfg none) 3 5 2
      { valid := [betaVideo, gammaVideo], selected := [alphaVideo], total := 10,
        used := [(str "Alpha", 1)], rng := () }
      = LineupGenerator.fill_episodes pickZero
        (WeightCalculator.calculate_weights_batch threeSmallDB 0)
        (LineupGenerator.available_duration defaultCfg none) 3 5 1
        { valid := [gammaVideo], selected := [alphaVideo, betaVideo], total := 20,
          used := [(str "Beta", 1), (str "Alpha", 1)], rng := () } := by
    rw [fill_episodes_step_accept pickZero
      (WeightCalculator.calculate_weights_batch threeSmallDB 0)
      (LineupGenerator.available_duration defaultCfg none) 3 5 2 1
      { valid := [betaVideo, gammaVideo], selected := [alphaVideo], total := 10,
        used := [(str "Alpha", 1)], rng := () } betaVideo
      rfl (by decide) (by decide)
      (by
        rw [show LineupGenerator.diverse_candidates
            ({ valid := [betaVideo, gammaVideo], selected := [alphaVideo], total := 10,
               used := [(str "Alpha", 1)], rng := () } : LineupGenerator.SelState Unit) 3
            = [betaVideo, gammaVideo] from by decide]
        simp only [List.map_cons, List.map_nil, List.sum_cons, List.sum_nil, add_zero]
        rw [show WeightCalculator.calculate_weights_batch threeSmallDB 0 betaVideo.id
            = WeightCalculator.calculate_weight threeSmallDB 2 0 from rfl, hw2,
          show WeightCalculator.calculate_weights_batch threeSmallDB 0 gammaVideo.id
            = WeightCalculator.calculate_weight threeSmallDB 3 0 from rfl, hw3]
        norm_num)
      rfl (by decide) (by decide)]
    congr 1
  have step3 : LineupGenerator.fill_episodes pickZero
      (WeightCalculator.calculate_weights_batch threeSmallDB 0)
      (LineupGenerator.available_duration defaultCfg none) 3 5 1
      { valid := [gammaVideo], selected := [alphaVideo, betaVideo], total := 20,
        used := [(str "Beta", 1), (str "Alpha", 1)], rng := () }
      = { valid := [], selected := [alphaVideo, betaVideo, gammaVideo], total := 30,
          used := [(str "Gamma", 1), (str "Beta", 1), (str "Alpha", 1)], rng := () } := by
    rw [fill_episodes_step_accept pickZero
      (WeightCalculator.calculate_weights_batch threeSmallDB 0)
      (LineupGenerator.available_duration defaultCfg none) 3 5 1 0
      { valid := [gammaVideo], selected := [alphaVideo, betaVideo], total := 20,
        used := [(str "Beta", 1), (str "Alpha", 1)], rng := () } gammaVideo
      rfl (by decide) (by decide)
      (by
        rw [show LineupGenerator.diverse_candidates
            ({ valid := [gammaVideo], selected := [alphaVideo, betaVideo], total := 20,
               used := [(str "Beta", 1), (str "Alpha", 1)], rng := () }
              : LineupGenerator.SelState Unit) 3
            = [gammaVideo] from by decide]
        simp only [List.map_cons, List.map_nil, List.sum_cons, List.sum_nil, add_zero]
        rw [show WeightCalculator.calculate_weights_batch threeSmallDB 0 gammaVideo.id
            = WeightCalculator.calculate_weight threeSmallDB 3 0 from rfl, hw3]
        norm_num)
      rfl (by decide) (by decide)]
    simp only [LineupGenerator.fill_episodes]
    decide
  unfold LineupGenerator.generate_lineup
  rw [show threeSmallDB.sessions.find? (fun s => s.show_date == (0 : Int)) = none from rfl]
  dsimp only
  simp only [LineupGenerator.normalize_requests]
  rw [show LineupGenerator.build_candidate_pool threeSmallDB 0 defaultCfg.repeat_cooldown_days []
      = [alphaVideo, betaVideo, gammaVideo] from by decide]
  rw [if_neg (show ¬([alphaVideo, betaVideo, gammaVideo].isEmpty = true) from by decide)]
  simp only [LineupGenerator.apply_request_multiplier, List.foldl_nil]
  unfold LineupGenerator.select_episodes
  dsimp only
  simp only [LineupGenerator.fulfill_requests]
  rw [show List.filter (fun v => decide (0 < WeightCalculator.calculate_weights_batch threeSmallDB 0 v.id))
      [alphaVideo, betaVideo, gammaVideo] = [alphaVideo, betaVideo, gammaVideo] from by
    apply List.filter_eq_self.mpr
    intro a ha
    fin_cases ha
    · apply decide_eq_true
      rw [show WeightCalculator.calculate_weights_batch threeSmallDB 0 alphaVideo.id
          = WeightCalculator.calculate_weight threeSmallDB 1 0 from rfl, hw1]
      norm_num
    · apply decide_eq_true
      rw [show WeightCalculator.calculate_weights_batch threeSmallDB 0 betaVideo.id
          = WeightCalculator.calculate_weight threeSmallDB 2 0 from rfl, hw2]
      norm_num
    · apply decide_eq_true
      rw [show WeightCalculator.calculate_weights_batch threeSmallDB 0 gammaVideo.id
          = WeightCalculator.calculate_weight threeSmallDB 3 0 from rfl, hw3]
      norm_num]
  rw [show ([alphaVideo, betaVideo, gammaVideo] : List Video).length = 3 from rfl]
  rw [step1, step2, step3]
  decide

/-- Counterexample to C7 as stated: over `threeSmallDB` the pool has enough
diversity to reach `min_episodes = 3` (three episodes are indeed selected),
yet the created session's total duration (30 s) is more than 60 seconds away
from `available_duration` (1780 s): the ±60 window does not hold. -/
theorem C7_counterexample :
    ((LineupGenerator.generate_lineup pickZero defaultCfg threeSmallDB () 0 0
      none 3 5 none).2.sessions.map (fun s => s.total_duration_seconds)) = [30] ∧
    (LineupGenerator.generate_lineup pickZero defaultCfg threeSmallDB () 0 0
      none 3 5 none).2.play_history.length = 3 ∧
    ¬(|(30 : Int) - LineupGenerator.available_duration defaultCfg none| ≤ 60) := by
  rw [generate_threeSmall_eval]
  exact ⟨rfl, rfl, by decide⟩

/-- Witness for C7 (amended) at the `threeSmallDB` run: the created session's
total duration respects the +60-second overage bound. -/
theorem C7_witness :
    (({ id := 1, show_date := 0, status := SessionStatus.planned,
        intro_path := some (str "/intro.mp4"),
        outro_path := some (str "/outro.mp4"),
        total_duration_seconds := 30 } : Session).total_duration_seconds : Int)
      ≤ LineupGenerator.available_duration defaultCfg none + 60 :=
  C7_duration_upper_bound pickZero defaultCfg threeSmallDB () 0 0 none 3 5
    { id := 1, show_date := 0, status := SessionStatus.planned,
      intro_path := some (str "/intro.mp4"),
      outro_path := some (str "/outro.mp4"),
      total_duration_seconds := 30 }
    (by rw [generate_threeSmall_eval]; decide)
